import Mathlib

/-!
Shallow embedding of the identifier-resolution pipeline of the
Stocks-WeeklyTech-Dashboard application (src/app.py).

Strings are modelled as `List Char`. HTTP interactions are modelled by an
outcome type: a call either produced a response (status code plus a body
that parsed or failed to parse) or raised a network exception. Python's
bare `except:` blocks become explicit case analysis; exceptions that no
`except` in the function catches are surfaced as `Except.error`.
-/

set_option autoImplicit false

namespace Dashboard

/-- Network-level failures: `requests.get` raising (timeout, connection error). -/
inductive NetErr where
  | timeout
  | connError
  deriving DecidableEq

/-- Failure of `.json()` on a response body. -/
inductive ParseErr where
  | malformed
  deriving DecidableEq

/-- Python exceptions that can escape a function in the pipeline. -/
inductive PyExc where
  | netExc (e : NetErr)
  | parseExc (e : ParseErr)
  | keyErr
  deriving DecidableEq

/-- Outcome of one HTTP GET: either a response with a status code and a body
(that parses to `α` or is malformed), or a raised network error. -/
inductive HttpResult (α : Type) where
  | response (status : Nat) (body : Except ParseErr α)
  | netError (e : NetErr)

/-- Checks that `p` is an initial segment of `s` (used to embed Python
substring search). -/
def startsWithL : List Char → List Char → Bool
  | [], _ => true
  | _ :: _, [] => false
  | p :: ps, c :: cs => p == c && startsWithL ps cs

/-- Embeds Python's `sub in s` substring test. -/
def hasSub (s p : List Char) : Bool :=
  match s with
  | [] => p.isEmpty
  | _ :: rest => startsWithL p s || hasSub rest p

/-- The exchange-suffix strip applied by the catalog loader:
`str.replace('.NS', '')` (src/app.py line 74). Python's `str.replace` deletes
every occurrence of the literal `.NS`, scanning left to right,
non-overlapping. -/
def stripNS : List Char → List Char
  | '.' :: 'N' :: 'S' :: rest => stripNS rest
  | c :: rest => c :: stripNS rest
  | [] => []

/-- First-match lookup in an association list keyed by strings; embeds Python
dict/column access returning `none` where Python raises `KeyError`. -/
def lookupKey {β : Type} (k : List Char) : List (List Char × β) → Option β
  | [] => none
  | (k2, v) :: rest => if k2 = k then some v else lookupKey k rest

/-- Key `'Symbol'` of the catalog table. -/
def symbolKey : List Char := ['S', 'y', 'm', 'b', 'o', 'l']

/-- A tabular file: a list of named columns, each a list of cell strings. -/
def Table : Type := List (List Char × List (List Char))

/-- What reading the catalog file produced: a parsed table, or a raised
exception (missing file, unreadable workbook). -/
inductive ReadOutcome where
  | ok (t : Table)
  | failed

/-- Embeds `load_stock_symbols` (src/app.py lines 71-77). The `Bool` records
whether the user-visible `st.error` message was emitted. Reading the `Symbol`
column of a table that lacks it raises; the bare `except:` catches every
exception and returns the empty list after showing the error. -/
def load_stock_symbols (input : ReadOutcome) : List (List Char) × Bool :=
  match input with
  | .failed => ([], true)
  | .ok t =>
    match lookupKey symbolKey t with
    | none => ([], true)
    | some col => (col.map stripNS, false)

/-- Key `'sc_id'` of an autosuggestion element. -/
def scIdKey : List Char := ['s', 'c', '_', 'i', 'd']

/-- Key `'stock_name'` of an autosuggestion element. -/
def stockNameKey : List Char := ['s', 't', 'o', 'c', 'k', '_', 'n', 'a', 'm', 'e']

/-- One element of the aggregator's autosuggestion response array: a JSON
object with string fields. -/
def JObj : Type := List (List Char × List Char)

/-- Embeds `get_sc_id` (src/app.py lines 80-88). The body of a 200 response is
the parsed JSON array; Python's truthiness test `money_control_res.json()`
is non-emptiness of that array. Field access on the first element may raise
`KeyError`; the surrounding `try/except` collapses every exception to
`(None, None)`. -/
def get_sc_id (res : HttpResult (List JObj)) : Option (List Char) × Option (List Char) :=
  match res with
  | .netError _ => (none, none)
  | .response status body =>
    match body with
    | .error _ => (none, none)
    | .ok [] => (none, none)
    | .ok (first :: _) =>
      if status == 200 then
        match lookupKey scIdKey first, lookupKey stockNameKey first with
        | some i, some n => (some i, some n)
        | _, _ => (none, none)
      else (none, none)

/-- Embeds `fetch_technical_indicators` (src/app.py lines 91-97). The function
has no `try/except`: a raised network error, or a `.json()` failure on a 200
response, propagates to the caller (`Except.error`). On a non-200 status the
body is never parsed and the function returns `None`. -/
def fetch_technical_indicators {α : Type} (res : HttpResult α) : Except PyExc (Option α) :=
  match res with
  | .netError e => .error (.netExc e)
  | .response status body =>
    if status == 200 then
      match body with
      | .ok j => .ok (some j)
      | .error pe => .error (.parseExc pe)
    else .ok none

/-- A minimal JSON value type for the indicator payload; only the amount of
structure the program inspects is represented. -/
inductive Jsonish where
  | null
  | num (n : Int)
  | str (s : List Char)
  | arr (xs : List Jsonish)
  | obj (entries : List (List Char × Jsonish))

/-- Python truthiness of a JSON value (`if data:` in `main`). -/
def jtruthy : Jsonish → Bool
  | .null => false
  | .num n => n != 0
  | .str s => !s.isEmpty
  | .arr xs => !xs.isEmpty
  | .obj entries => !entries.isEmpty

/-- Parsed body of the exchange quote endpoint, reduced to the part the code
reads: `r.json()['metadata']['isin']`. The outer option is presence of the
`metadata` key, the inner one presence of `isin` under it. -/
def NseJson : Type := Option (Option (List Char))

/-- Evaluates `r.json()['metadata']['isin']`; `none` means a `KeyError` was
raised (caught only by the top-level handler in `main`). -/
def extractIsin (j : NseJson) : Option (List Char) :=
  j.bind id

/-- Query-type discriminator on the aggregator search endpoint; the code
hard-wires `type=1` (src/app.py line 82). -/
inductive QueryType where
  | isinMode
  | symbolMode
  deriving DecidableEq

/-- External calls the single-symbol pipeline can issue, with their
arguments, in order of issue. -/
inductive Call where
  | nseHome
  | nseQuote (symbol : List Char)
  | mcSearch (ident : List Char) (qt : QueryType)
  | feed (scId : List Char)

/-- True exactly on aggregator autosuggestion (provider-ID resolution) calls. -/
def isMcSearch : Call → Bool
  | .mcSearch _ _ => true
  | _ => false

/-- True exactly on indicator-feed fetch calls. -/
def isFeed : Call → Bool
  | .feed _ => true
  | _ => false

/-- How the single-symbol run ends, mirroring the `st.error` / display calls
in `main` (src/app.py lines 198-226). -/
inductive Outcome where
  | displayed (stockName : Option (List Char)) (data : Jsonish)
  | errFetchIndicators
  | errNotFoundMC
  | errFetchISIN
  | errException

/-- The responses the external world would give to the calls of one
single-symbol run. -/
structure Env where
  /-- `s.get("https://www.nseindia.com/")`: `none` when it returns, `some e`
  when it raises. -/
  home : Option NetErr
  /-- Response to the quote-equity metadata request. -/
  nse : HttpResult NseJson
  /-- Response to the aggregator autosuggestion request. -/
  mc : HttpResult (List JObj)
  /-- Response to the indicator-feed request. -/
  feed : HttpResult Jsonish

/-- Python truthiness of `sc_id` (`if sc_id:`): `None` and the empty string
are falsy. -/
def scTruthy : Option (List Char) → Bool
  | none => false
  | some s => !s.isEmpty

/-- Embeds the single-symbol branch of `main` (src/app.py lines 198-226):
warm-up request, quote-metadata request, ISIN extraction, `get_sc_id` on the
ISIN, then `fetch_technical_indicators` and display. Returns the trace of
external calls issued and the final outcome. Any exception reaching the
`try` of lines 200-226 yields the generic error message (`errException`). -/
def runPipeline (sym : List Char) (env : Env) : List Call × Outcome :=
  match env.home with
  | some _ => ([.nseHome], .errException)
  | none =>
    match env.nse with
    | .netError _ => ([.nseHome, .nseQuote sym], .errException)
    | .response status body =>
      if status == 200 then
        match body with
        | .error _ => ([.nseHome, .nseQuote sym], .errException)
        | .ok meta =>
          match extractIsin meta with
          | none => ([.nseHome, .nseQuote sym], .errException)
          | some isin =>
            let trace := [.nseHome, .nseQuote sym, .mcSearch isin .isinMode]
            let scPair := get_sc_id env.mc
            if scTruthy scPair.1 then
              let trace2 := trace ++ [.feed (scPair.1.getD [])]
              match fetch_technical_indicators env.feed with
              | .error _ => (trace2, .errException)
              | .ok none => (trace2, .errFetchIndicators)
              | .ok (some d) =>
                if jtruthy d then (trace2, .displayed scPair.2 d)
                else (trace2, .errFetchIndicators)
            else (trace, .errNotFoundMC)
      else ([.nseHome, .nseQuote sym], .errFetchISIN)

/-- The five indicator buckets of the presentation layer; the code has no
separate `Other` bucket, unmatched names land in `trend` (line 152). -/
inductive Category where
  | trend
  | momentum
  | volatility
  | volume
  deriving DecidableEq

/-- Embeds the keyword classification of src/app.py lines 141-152: an
if/elif chain of substring tests on the indicator name, first match wins,
defaulting to the trend bucket. -/
def classify (name : List Char) : Category :=
  if hasSub name ['M', 'A'] || hasSub name ['M', 'o', 'v', 'i', 'n', 'g', ' ', 'A', 'v', 'e', 'r', 'a', 'g', 'e'] || hasSub name ['E', 'M', 'A'] then
    .trend
  else if hasSub name ['R', 'S', 'I'] || hasSub name ['S', 't', 'o', 'c', 'h', 'a', 's', 't', 'i', 'c'] || hasSub name ['M', 'o', 'm', 'e', 'n', 't', 'u', 'm'] || hasSub name ['M', 'A', 'C', 'D'] then
    .momentum
  else if hasSub name ['B', 'o', 'l', 'l', 'i', 'n', 'g', 'e', 'r'] || hasSub name ['A', 'T', 'R'] || hasSub name ['V', 'o', 'l', 'a', 't', 'i', 'l', 'i', 't', 'y'] then
    .volatility
  else if hasSub name ['V', 'o', 'l', 'u', 'm', 'e'] || hasSub name ['O', 'B', 'V'] then
    .volume
  else
    .trend

/-- Modelled from the spec: the catalog file (`stock_symbols.xlsx`) is not
part of the source tree. Per the spec, a catalog entry is a short ticker
string optionally suffixed with the national-exchange marker `.NS`; the
ticker itself contains no `'.'` character. -/
def specCatalogSymbol (s : List Char) : Prop :=
  ∃ base : List Char, '.' ∉ base ∧ (s = base ∨ s = base ++ ['.', 'N', 'S'])

lemma stripNS_cons_ne {c : Char} (rest : List Char) (h : c ≠ '.') :
    stripNS (c :: rest) = c :: stripNS rest := by
  cases rest with
  | nil => simp [stripNS]
  | cons c2 rest2 =>
    cases rest2 with
    | nil => simp [stripNS, h]
    | cons c3 rest3 => simp [stripNS, h]

lemma stripNS_no_dot {s : List Char} (h : '.' ∉ s) : stripNS s = s := by
  induction s with
  | nil => rfl
  | cons c rest ih =>
    have hc : c ≠ '.' := fun hcon => h (hcon ▸ List.mem_cons_self c rest)
    rw [stripNS_cons_ne rest hc, ih (fun hm => h (List.mem_cons_of_mem c hm))]

lemma stripNS_strips_suffix {base : List Char} (h : '.' ∉ base) :
    stripNS (base ++ ['.', 'N', 'S']) = base := by
  induction base with
  | nil => rfl
  | cons c rest ih =>
    have hc : c ≠ '.' := fun hcon => h (hcon ▸ List.mem_cons_self c rest)
    rw [List.cons_append, stripNS_cons_ne _ hc,
      ih (fun hm => h (List.mem_cons_of_mem c hm))]

/-- C4: for every catalog symbol (per the spec's shape: a dot-free ticker,
optionally suffixed with `.NS`), the loader's suffix strip is idempotent. -/
theorem stripNS_idempotent_on_catalog (s : List Char) (h : specCatalogSymbol s) :
    stripNS (stripNS s) = stripNS s := by
  obtain ⟨base, hdot, hs | hs⟩ := h <;> subst hs
  · rw [stripNS_no_dot hdot, stripNS_no_dot hdot]
  · rw [stripNS_strips_suffix hdot, stripNS_no_dot hdot]

/-- Witness for C4 at the concrete catalog symbol `TCS.NS`. -/
theorem stripNS_idempotent_on_catalog_witness :
    stripNS (stripNS ['T', 'C', 'S', '.', 'N', 'S']) =
      stripNS ['T', 'C', 'S', '.', 'N', 'S'] :=
  stripNS_idempotent_on_catalog ['T', 'C', 'S', '.', 'N', 'S']
    ⟨['T', 'C', 'S'], by decide, Or.inr rfl⟩

/-- C6: when reading the catalog raises (missing file) or the table lacks the
`Symbol` column, the loader returns the empty list and shows the error
message instead of propagating an exception. -/
theorem load_stock_symbols_fails_gracefully :
    load_stock_symbols .failed = ([], true) ∧
    (∀ t : Table, lookupKey symbolKey t = none → load_stock_symbols (.ok t) = ([], true)) := by
  refine ⟨rfl, fun t h => ?_⟩
  simp [load_stock_symbols, h]

/-- Witness for C6 at a concrete table with no `Symbol` column. -/
theorem load_stock_symbols_fails_gracefully_witness :
    load_stock_symbols (.ok [(['N', 'a', 'm', 'e'], [['F', 'O', 'O']])]) = ([], true) :=
  load_stock_symbols_fails_gracefully.2 [(['N', 'a', 'm', 'e'], [['F', 'O', 'O']])] (by decide)

/-- C8 counterexample: on a successful read of a catalog whose `Symbol`
column holds the two distinct entries `FOO` and `FOO.NS`, the loader returns
`[FOO, FOO]`, which is not pairwise distinct: the loader never
deduplicates. -/
theorem load_stock_symbols_not_distinct :
    ¬ (load_stock_symbols
        (.ok [(symbolKey, [['F', 'O', 'O'], ['F', 'O', 'O', '.', 'N', 'S']])])).1.Nodup := by
  decide

/-- C8 amended: on a successful read the loader returns exactly the `Symbol`
column's values in order, each with the exchange suffix stripped, and no
error; the result is pairwise distinct only when the stripped values already
are (distinctness is not enforced by the loader). -/
theorem load_stock_symbols_success (t : Table) (col : List (List Char))
    (h : lookupKey symbolKey t = some col) :
    load_stock_symbols (.ok t) = (col.map stripNS, false) ∧
    ((col.map stripNS).Nodup → (load_stock_symbols (.ok t)).1.Nodup) := by
  refine ⟨by simp [load_stock_symbols, h], fun hd => ?_⟩
  simp [load_stock_symbols, h, hd]

/-- Witness for C8's amended statement at a concrete one-column table. -/
theorem load_stock_symbols_success_witness :
    load_stock_symbols (.ok [(symbolKey, [['T', 'C', 'S', '.', 'N', 'S']])]) =
      ([['T', 'C', 'S']], false) :=
  (load_stock_symbols_success [(symbolKey, [['T', 'C', 'S', '.', 'N', 'S']])]
    [['T', 'C', 'S', '.', 'N', 'S']] (by decide)).1

/-- C5: on the spec's mock payload names, the keyword classifier places
`RSI(14)` in the momentum bucket and `20 Day MA` in the trend bucket. -/
theorem classify_mock_payload :
    classify ['R', 'S', 'I', '(', '1', '4', ')'] = .momentum ∧
    classify ['2', '0', ' ', 'D', 'a', 'y', ' ', 'M', 'A'] = .trend := by
  decide

lemma startsWithL_append_left (p q s : List Char) (h : startsWithL (p ++ q) s = true) :
    startsWithL p s = true := by
  induction p generalizing s with
  | nil => rfl
  | cons a ps ih =>
    cases s with
    | nil => exact absurd h (by simp [startsWithL])
    | cons c cs =>
      simp only [List.cons_append, startsWithL, Bool.and_eq_true] at h ⊢
      exact ⟨h.1, ih cs h.2⟩

lemma hasSub_append_left (s p q : List Char) (h : hasSub s (p ++ q) = true) :
    hasSub s p = true := by
  induction s with
  | nil =>
    simp only [hasSub, List.isEmpty_eq_true, List.append_eq_nil] at h ⊢
    exact h.1
  | cons c rest ih =>
    simp only [hasSub, Bool.or_eq_true] at h ⊢
    rcases h with h | h
    · exact Or.inl (startsWithL_append_left p q _ h)
    · exact Or.inr (ih h)

/-- C9: every indicator name containing `MACD` also contains `MA`, so the
first branch of the if/elif chain claims it for the trend bucket; the `MACD`
keyword in the momentum branch can never fire. -/
theorem macd_names_classified_trend (name : List Char)
    (h : hasSub name ['M', 'A', 'C', 'D'] = true) :
    classify name = .trend ∧ classify name ≠ .momentum := by
  have hma : hasSub name ['M', 'A'] = true :=
    hasSub_append_left name ['M', 'A'] ['C', 'D'] h
  constructor
  · simp [classify, hma]
  · simp [classify, hma]

/-- Witness for C9 at the concrete indicator name `MACD(12,26)`. -/
theorem macd_names_classified_trend_witness :
    classify ['M', 'A', 'C', 'D', '(', '1', '2', ',', '2', '6', ')'] = .trend ∧
    classify ['M', 'A', 'C', 'D', '(', '1', '2', ',', '2', '6', ')'] ≠ .momentum :=
  macd_names_classified_trend ['M', 'A', 'C', 'D', '(', '1', '2', ',', '2', '6', ')'] (by decide)

/-- C2 counterexample: on a network error (timeout) the indicator fetcher
does not return `None`: the exception propagates out of the function, which
has no handler of its own. -/
theorem fetch_technical_indicators_raises_on_timeout :
    fetch_technical_indicators (HttpResult.netError NetErr.timeout : HttpResult Jsonish) =
      .error (.netExc NetErr.timeout) ∧
    fetch_technical_indicators (HttpResult.netError NetErr.timeout : HttpResult Jsonish) ≠
      .ok none := by
  exact ⟨rfl, fun hcon => Except.noConfusion hcon⟩

/-- C2 amended: the fetcher returns the parsed JSON body on a 200 response,
returns `None` (without parsing the body) on any other status, and lets a
raised network error propagate to the caller; it never retries. -/
theorem fetch_technical_indicators_contract (α : Type) :
    (∀ j : α, fetch_technical_indicators (.response 200 (.ok j)) = .ok (some j)) ∧
    (∀ (status : Nat) (body : Except ParseErr α), status ≠ 200 →
      fetch_technical_indicators (.response status body) = .ok none) ∧
    (∀ e : NetErr, fetch_technical_indicators (.netError e : HttpResult α) = .error (.netExc e)) := by
  refine ⟨fun j => rfl, fun status body h => ?_, fun e => rfl⟩
  simp [fetch_technical_indicators, h]

/-- Witness for C2's amended statement at status 404 with a parseable body. -/
theorem fetch_technical_indicators_contract_witness :
    fetch_technical_indicators (HttpResult.response 404 (Except.ok (Jsonish.num 7))) = .ok none :=
  (fetch_technical_indicators_contract Jsonish).2.1 404 (Except.ok (Jsonish.num 7)) (by decide)

/-- C7: the provider-ID resolver returns the first array element's `sc_id`
and `stock_name` exactly when the status is 200 and the array is non-empty
(given that the first element carries both fields, as the aggregator's
interface promises), and returns `(None, None)` on any non-200 status
(whatever the body, a non-empty well-formed array included), on an empty
array, on malformed JSON, and on a raised network error. -/
theorem get_sc_id_contract :
    (∀ (status : Nat) (first : JObj) (rest : List JObj) (i n : List Char),
      lookupKey scIdKey first = some i → lookupKey stockNameKey first = some n →
      (get_sc_id (.response status (.ok (first :: rest))) = (some i, some n) ↔ status = 200)) ∧
    (∀ (status : Nat) (body : Except ParseErr (List JObj)), status ≠ 200 →
      get_sc_id (.response status body) = (none, none)) ∧
    (∀ status : Nat, get_sc_id (.response status (.ok ([] : List JObj))) = (none, none)) ∧
    (∀ (status : Nat) (pe : ParseErr),
      get_sc_id (.response status (.error pe) : HttpResult (List JObj)) = (none, none)) ∧
    (∀ e : NetErr, get_sc_id (.netError e) = (none, none)) := by
  refine ⟨?_, ?_, fun _ => rfl, fun _ _ => rfl, fun _ => rfl⟩
  · intro status first rest i n hi hn
    constructor
    · intro h
      by_contra hst
      simp [get_sc_id, hst] at h
    · intro h
      subst h
      simp [get_sc_id, hi, hn]
  · intro status body hst
    match body with
    | .error _ => rfl
    | .ok [] => rfl
    | .ok (first :: rest) => simp [get_sc_id, hst]

/-- Witness for C7: a 200 response whose first element has both fields
yields that pair, and the same non-empty well-formed body behind a 500
status yields the empty pair. -/
theorem get_sc_id_contract_witness :
    get_sc_id (.response 200 (.ok [[(scIdKey, ['T', 'C', 'S', '0', '1']),
        (stockNameKey, ['T', 'C', 'S'])]])) =
      (some ['T', 'C', 'S', '0', '1'], some ['T', 'C', 'S']) ∧
    get_sc_id (.response 500 (.ok [[(scIdKey, ['T', 'C', 'S', '0', '1']),
        (stockNameKey, ['T', 'C', 'S'])]])) = (none, none) :=
  ⟨(get_sc_id_contract.1 200
      [(scIdKey, ['T', 'C', 'S', '0', '1']), (stockNameKey, ['T', 'C', 'S'])]
      [] ['T', 'C', 'S', '0', '1'] ['T', 'C', 'S'] (by decide) (by decide)).mpr rfl,
    get_sc_id_contract.2.1 500
      (.ok [[(scIdKey, ['T', 'C', 'S', '0', '1']), (stockNameKey, ['T', 'C', 'S'])]])
      (by decide)⟩

/-- C10: every run of the provider-ID resolver either returns both fields of
the first response element or collapses to `(None, None)`; in particular a
first element missing `sc_id` or `stock_name` yields `(None, None)`, never a
partially populated pair. -/
theorem get_sc_id_atomic (res : HttpResult (List JObj)) :
    ((∃ status first rest i n,
        res = .response status (.ok (first :: rest)) ∧ status = 200 ∧
        lookupKey scIdKey first = some i ∧ lookupKey stockNameKey first = some n ∧
        get_sc_id res = (some i, some n)) ∨
      get_sc_id res = (none, none)) ∧
    (∀ (status : Nat) (first : JObj) (rest : List JObj),
      res = .response status (.ok (first :: rest)) →
      lookupKey scIdKey first = none ∨ lookupKey stockNameKey first = none →
      get_sc_id res = (none, none)) := by
  constructor
  · match res with
    | .netError _ => exact Or.inr rfl
    | .response status (.error _) => exact Or.inr rfl
    | .response status (.ok []) => exact Or.inr rfl
    | .response status (.ok (first :: rest)) =>
      by_cases hst : status = 200
      · subst hst
        cases hi : lookupKey scIdKey first with
        | none => exact Or.inr (by simp [get_sc_id, hi])
        | some i =>
          cases hn : lookupKey stockNameKey first with
          | none => exact Or.inr (by simp [get_sc_id, hi, hn])
          | some n =>
            exact Or.inl ⟨200, first, rest, i, n, rfl, rfl, hi, hn, by simp [get_sc_id, hi, hn]⟩
      · exact Or.inr (by simp [get_sc_id, hst])
  · intro status first rest heq hmiss
    subst heq
    rcases hmiss with hmiss | hmiss <;>
      · simp only [get_sc_id, hmiss]
        split <;> simp_all

/-- Witness for C10 at a 200 response whose first element has `sc_id` but no
`stock_name`: the result is the fully empty pair. -/
theorem get_sc_id_atomic_witness :
    get_sc_id (.response 200 (.ok [[(scIdKey, ['A', 'B'])]])) = (none, none) :=
  (get_sc_id_atomic (.response 200 (.ok [[(scIdKey, ['A', 'B'])]]))).2 200
    [(scIdKey, ['A', 'B'])] [] rfl (Or.inr (by decide))

/-- C1 counterexample: with the exchange metadata endpoint answering 500
(and an aggregator that would answer symbol-mode queries successfully), the
pipeline issues no provider-ID resolution call at all and stops with the
ISIN-failure message, contradicting the claimed symbol-mode fallback. -/
theorem pipeline_no_symbol_fallback :
    (runPipeline ['T', 'C', 'S']
      ⟨none, .response 500 (.ok (some (some ['I', 'N', 'E', '0']))),
        .response 200 (.ok [[(scIdKey, ['T', 'C', 'S', '0', '1']),
          (stockNameKey, ['T', 'C', 'S'])]]),
        .response 200 (.ok (Jsonish.num 1))⟩).1.filter isMcSearch = [] ∧
    (runPipeline ['T', 'C', 'S']
      ⟨none, .response 500 (.ok (some (some ['I', 'N', 'E', '0']))),
        .response 200 (.ok [[(scIdKey, ['T', 'C', 'S', '0', '1']),
          (stockNameKey, ['T', 'C', 'S'])]]),
        .response 200 (.ok (Jsonish.num 1))⟩).2 = .errFetchISIN :=
  ⟨rfl, rfl⟩

/-- C1 amended: when ISIN resolution fails (the exchange metadata endpoint
returns a non-200 status), the pipeline terminates the symbol with the
ISIN-failure message and issues no provider-ID resolution call, in either
mode: the code has no symbol-mode fallback. -/
theorem pipeline_aborts_on_isin_failure (sym : List Char) (env : Env) (status : Nat)
    (body : Except ParseErr NseJson) (hh : env.home = none)
    (hn : env.nse = .response status body) (hs : status ≠ 200) :
    runPipeline sym env = ([.nseHome, .nseQuote sym], .errFetchISIN) ∧
    (runPipeline sym env).1.filter isMcSearch = [] := by
  have hr : runPipeline sym env = ([.nseHome, .nseQuote sym], .errFetchISIN) := by
    simp [runPipeline, hh, hn, hs]
  rw [hr]
  exact ⟨rfl, rfl⟩

/-- Witness for C1's amended statement at a concrete 500 response. -/
theorem pipeline_aborts_on_isin_failure_witness :
    runPipeline ['X'] ⟨none, .response 500 (.ok none), .response 200 (.ok []),
        .response 200 (.ok Jsonish.null)⟩ =
      ([.nseHome, .nseQuote ['X']], .errFetchISIN) :=
  (pipeline_aborts_on_isin_failure ['X']
    ⟨none, .response 500 (.ok none), .response 200 (.ok []), .response 200 (.ok Jsonish.null)⟩
    500 (.ok none) rfl rfl (by decide)).1

/-- C3: if provider-ID resolution yields no `sc_id`, the pipeline never
issues an indicator-feed call, and a run that reached resolution terminates
with the resolution-failure message. -/
theorem pipeline_skips_fetch_on_resolution_failure (sym : List Char) (env : Env)
    (h : (get_sc_id env.mc).1 = none) :
    (runPipeline sym env).1.filter isFeed = [] ∧
    (∀ (meta : NseJson) (isin : List Char), env.home = none →
      env.nse = .response 200 (.ok meta) → extractIsin meta = some isin →
      (runPipeline sym env).2 = .errNotFoundMC) := by
  rcases env with ⟨home, nse, mc, feed⟩
  simp only at h
  constructor
  · cases home with
    | some e => simp [runPipeline, isFeed]
    | none =>
      cases nse with
      | netError e => simp [runPipeline, isFeed]
      | response status body =>
        by_cases hst : status = 200
        · subst hst
          cases body with
          | error pe => simp [runPipeline, isFeed]
          | ok meta =>
            cases hmi : extractIsin meta with
            | none => simp [runPipeline, hmi, isFeed]
            | some isin => simp [runPipeline, hmi, h, scTruthy, isFeed]
        · simp [runPipeline, hst, isFeed]
  · intro meta isin hh hn hisin
    simp only at hh hn
    subst hh
    subst hn
    simp [runPipeline, hisin, h, scTruthy]

/-- Witness for C3 at a concrete run whose aggregator search returns the
empty array. -/
theorem pipeline_skips_fetch_on_resolution_failure_witness :
    (runPipeline ['X', 'Y', 'Z'] ⟨none, .response 200 (.ok (some (some ['I', 'N', 'E']))),
        .response 200 (.ok []), .response 200 (.ok (Jsonish.num 1))⟩).1.filter isFeed = [] ∧
    (runPipeline ['X', 'Y', 'Z'] ⟨none, .response 200 (.ok (some (some ['I', 'N', 'E']))),
        .response 200 (.ok []), .response 200 (.ok (Jsonish.num 1))⟩).2 = .errNotFoundMC := by
  have t := pipeline_skips_fetch_on_resolution_failure ['X', 'Y', 'Z']
    ⟨none, .response 200 (.ok (some (some ['I', 'N', 'E']))),
      .response 200 (.ok []), .response 200 (.ok (Jsonish.num 1))⟩ rfl
  exact ⟨t.1, t.2 (some (some ['I', 'N', 'E'])) ['I', 'N', 'E'] rfl rfl rfl⟩

end Dashboard
